import Mathlib

/-!
Verification development for the Hedera NFT demo repository
(`index.js` and the `HederaNftService` class).

The service methods are sequential orchestrations of SDK calls.  We embed them
shallowly: the SDK is an oracle (`SDK`) assigning a response to every request,
the mutable service/process state (`St`) carries the lazily created client
handle, a heap of account records (JS objects are heap references, so mutation
of an account record would be visible here), the fresh-key and clock counters,
and the trace of SDK calls made so far.  A method is a function
`St → Except Err α × St`; an exception propagates the state (JS mutations
survive a throw).  Opaque SDK values (account ids, token ids, statuses) are
modelled as strings, key pairs as naturals.
-/

namespace HederaNft

abbrev AccountId := String
abbrev TokenId := String
abbrev PrivateKey := Nat
abbrev PublicKey := Nat
abbrev Status := String
abbrev TxRef := Nat
abbrev AccRef := Nat

/-- A JS error object: an identity tag (object identity, so that "rethrows the
same error object" is expressible) and its `message` string. -/
structure Err where
  eid : Nat
  message : String
deriving DecidableEq

/-- The public key of a generated ED25519 key pair (`privateKey.publicKey`);
the pair is abstracted by one natural number. -/
def pubOf (k : PrivateKey) : PublicKey := k

/-- The configured Hedera client handle built by `getClient`:
`Client.forTestnet()` with operator credentials and the two fee defaults
(`Hbar(50)`, `Hbar(30)`).  `cid` is the allocation identity of the handle. -/
structure Client where
  cid : Nat
  operatorId : Option String
  operatorKey : Option String
  maxTxFee : Int
  maxQueryPayment : Int
deriving DecidableEq

/-- The account record returned by `createAccount`. -/
structure Account where
  accountId : Option AccountId
  privateKey : PrivateKey
  publicKey : PublicKey
  status : Status
  balance : Int
deriving DecidableEq

/-- A transaction receipt (`response.getReceipt(client)`); the SDK receipt
carries a status and per-transaction-kind optional fields. -/
structure Receipt where
  status : Status
  accountId : Option AccountId := none
  tokenId : Option TokenId := none
  serials : Option (List Int) := none
deriving DecidableEq

/-- The response of a `TokenInfoQuery`. -/
structure TokenInfo where
  tokenId : Option TokenId
  name : String
  symbol : String
  tokenType : String
  decimals : Int
  totalSupply : Int
  maxSupply : Int
  supplyType : String
  treasuryAccountId : Option AccountId
  supplyKey : Option PrivateKey
  creationTime : String
deriving DecidableEq

/-- The response of an `AccountBalanceQuery`: hbars plus the (possibly absent)
token-id → amount map, kept as an association list. -/
structure BalanceResp where
  hbars : Int
  tokens : Option (List (TokenId × Int))
deriving DecidableEq

/-- The request assembled by `createAccount`: `AccountCreateTransaction` with
`setKey(publicKey)` and `setInitialBalance(new Hbar(initialBalance))`. -/
structure AccountCreateReq where
  key : PublicKey
  initialBalance : Int
deriving DecidableEq

/-- The request assembled by `createNFTToken` (all the setters of the
`TokenCreateTransaction`, plus who signed the frozen transaction). -/
structure TokenCreateReq where
  name : String
  symbol : String
  tokenType : String
  decimals : Int
  initialSupply : Int
  treasury : Option AccountId
  supplyType : String
  maxSupply : Int
  supplyKey : PrivateKey
  signedBy : List PrivateKey
deriving DecidableEq

/-- The request assembled by `mintNFTs`: token id, one metadata buffer per
element, and the signing key. -/
structure TokenMintReq where
  tokenId : Option TokenId
  metadata : List String
  signedBy : List PrivateKey
deriving DecidableEq

/-- The request assembled by `associateTokenToAccount`. -/
structure TokenAssociateReq where
  accountId : Option AccountId
  tokenIds : List (Option TokenId)
  signedBy : List PrivateKey
deriving DecidableEq

/-- The request assembled by `transferNFT`
(`addNftTransfer(tokenId, serialNumber, from, to)`, signed by both keys). -/
structure TransferReq where
  tokenId : Option TokenId
  serialNumber : Int
  fromId : Option AccountId
  toId : Option AccountId
  signedBy : List PrivateKey
deriving DecidableEq

/-- One SDK call, with its full request payload. -/
inductive Call where
  | execAccountCreate (req : AccountCreateReq)
  | getReceipt (tx : TxRef)
  | execTokenCreate (req : TokenCreateReq)
  | queryTokenInfo (tid : Option TokenId)
  | execTokenMint (req : TokenMintReq)
  | execTokenAssociate (req : TokenAssociateReq)
  | execTransfer (req : TransferReq)
  | queryBalance (aid : Option AccountId)
  | clientClose (cid : Nat)
deriving DecidableEq

/-- The kind of an SDK call, with the payload forgotten. -/
inductive CallKind where
  | execAccountCreate
  | getReceipt
  | execTokenCreate
  | queryTokenInfo
  | execTokenMint
  | execTokenAssociate
  | execTransfer
  | queryBalance
  | clientClose
deriving DecidableEq

def Call.kind : Call → CallKind
  | .execAccountCreate _ => .execAccountCreate
  | .getReceipt _ => .getReceipt
  | .execTokenCreate _ => .execTokenCreate
  | .queryTokenInfo _ => .queryTokenInfo
  | .execTokenMint _ => .execTokenMint
  | .execTokenAssociate _ => .execTokenAssociate
  | .execTransfer _ => .execTransfer
  | .queryBalance _ => .queryBalance
  | .clientClose _ => .clientClose

/-- The SDK/ledger oracle: a fixed response for every possible request.  The
local code under verification never inspects how these responses are
produced. -/
structure SDK where
  execAccountCreate : AccountCreateReq → Except Err TxRef
  execTokenCreate : TokenCreateReq → Except Err TxRef
  execTokenMint : TokenMintReq → Except Err TxRef
  execTokenAssociate : TokenAssociateReq → Except Err TxRef
  execTransfer : TransferReq → Except Err TxRef
  getReceipt : TxRef → Except Err Receipt
  queryTokenInfo : Option TokenId → Except Err TokenInfo
  queryBalance : Option AccountId → Except Err BalanceResp

/-- The ambient environment of a run: the SDK oracle, the stream of generated
key pairs (`PrivateKey.generateED25519`), and the local clock
(`new Date().toISOString()`), both indexed by per-run counters. -/
structure Env where
  sdk : SDK
  keys : Nat → PrivateKey
  time : Nat → String

/-- The mutable state of the service object and of the run: the operator
credentials stored by the constructor, the lazily created client handle and
its allocation counter, the heap of account records, the key and clock
counters, and the trace of SDK calls made so far. -/
structure St where
  operatorId : Option String
  operatorKey : Option String
  client : Option Client
  nextClientId : Nat
  heap : List Account
  keyCtr : Nat
  tick : Nat
  trace : List Call
deriving DecidableEq

/-- The semantic domain of a method body: state in, `Except` result and state
out.  A thrown error keeps the state reached so far. -/
def M (α : Type) : Type := St → Except Err α × St

def M.pure {α : Type} (a : α) : M α := fun s => (Except.ok a, s)

def M.bind {α β : Type} (x : M α) (f : α → M β) : M β := fun s =>
  match x s with
  | (Except.ok a, s1) => f a s1
  | (Except.error e, s1) => (Except.error e, s1)

instance : Monad M where
  pure := M.pure
  bind := M.bind

def M.throw {α : Type} (e : Err) : M α := fun s => (Except.error e, s)

/-- JS `try { x } catch (e) { h e }`. -/
def M.tryCatch {α : Type} (x : M α) (h : Err → M α) : M α := fun s =>
  match x s with
  | (Except.ok a, s1) => (Except.ok a, s1)
  | (Except.error e, s1) => h e s1

/-- Perform one SDK call: record it in the trace and return the oracle's
response for it. -/
def sdkCall {α : Type} (c : Call) (r : Except Err α) : M α := fun s =>
  (r, { s with trace := s.trace ++ [c] })

/-- `PrivateKey.generateED25519()`: the next key of the environment's key
stream. -/
def freshKey (E : Env) : M PrivateKey := fun s =>
  (Except.ok (E.keys s.keyCtr), { s with keyCtr := s.keyCtr + 1 })

/-- `new Date().toISOString()`: the next value of the environment's clock. -/
def nowStr (E : Env) : M String := fun s =>
  (Except.ok (E.time s.tick), { s with tick := s.tick + 1 })

/-- Allocate a fresh JS object holding an account record; returns its heap
reference. -/
def allocAcc (a : Account) : M AccRef := fun s =>
  (Except.ok s.heap.length, { s with heap := s.heap ++ [a] })

/-- Read the account record behind a reference (a JS field access on the
object; an invalid reference would be `undefined` and any field access on it
throws). -/
def readAcc (r : AccRef) : M Account := fun s =>
  match s.heap[r]? with
  | some a => (Except.ok a, s)
  | none => (Except.error { eid := 9999, message := "TypeError: account reference is undefined" }, s)

/-- JS falsiness of `process.env` values: `undefined` or the empty string. -/
def jsFalsy : Option String → Bool
  | none => true
  | some s => s == ""

/-- The `HederaNftService` constructor: store the two environment variables
and a `null` client, then throw unless both are truthy.  On success it yields
the initial run state. -/
def constructorJs (envOperatorId envOperatorKey : Option String) : Except Err St :=
  if jsFalsy envOperatorKey || jsFalsy envOperatorId then
    Except.error { eid := 1, message := "Please set OPERATOR_ID and OPERATOR_KEY in your .env file" }
  else
    Except.ok { operatorId := envOperatorId, operatorKey := envOperatorKey, client := none,
                nextClientId := 0, heap := [], keyCtr := 0, tick := 0, trace := [] }

/-- `getClient` (lines 36-45): construct and configure the client only when
the stored handle is `null`, otherwise return the stored handle. -/
def getClient : M Client := fun s =>
  match s.client with
  | some c => (Except.ok c, s)
  | none =>
      let c : Client := { cid := s.nextClientId, operatorId := s.operatorId,
                          operatorKey := s.operatorKey, maxTxFee := 50, maxQueryPayment := 30 }
      (Except.ok c, { s with client := some c, nextClientId := s.nextClientId + 1 })

/-- `close` (lines 50-56): release the stored client handle, if any, and reset
the field to `null`. -/
def close : M Unit := fun s =>
  match s.client with
  | some c => (Except.ok (), { s with client := none, trace := s.trace ++ [Call.clientClose c.cid] })
  | none => (Except.ok (), s)

def doExecAccountCreate (E : Env) (req : AccountCreateReq) : M TxRef :=
  sdkCall (Call.execAccountCreate req) (E.sdk.execAccountCreate req)

def doGetReceipt (E : Env) (tx : TxRef) : M Receipt :=
  sdkCall (Call.getReceipt tx) (E.sdk.getReceipt tx)

def doExecTokenCreate (E : Env) (req : TokenCreateReq) : M TxRef :=
  sdkCall (Call.execTokenCreate req) (E.sdk.execTokenCreate req)

def doQueryTokenInfo (E : Env) (tid : Option TokenId) : M TokenInfo :=
  sdkCall (Call.queryTokenInfo tid) (E.sdk.queryTokenInfo tid)

def doExecTokenMint (E : Env) (req : TokenMintReq) : M TxRef :=
  sdkCall (Call.execTokenMint req) (E.sdk.execTokenMint req)

def doExecTokenAssociate (E : Env) (req : TokenAssociateReq) : M TxRef :=
  sdkCall (Call.execTokenAssociate req) (E.sdk.execTokenAssociate req)

def doExecTransfer (E : Env) (req : TransferReq) : M TxRef :=
  sdkCall (Call.execTransfer req) (E.sdk.execTransfer req)

def doQueryBalance (E : Env) (aid : Option AccountId) : M BalanceResp :=
  sdkCall (Call.queryBalance aid) (E.sdk.queryBalance aid)

/-- `createAccount` (lines 63-100): get the client, generate a key pair,
submit the account-create transaction, await its receipt and return the
account record `{accountId, privateKey, publicKey, status, balance}` (a fresh
heap object); the catch block logs and rethrows. -/
def createAccount (E : Env) (initialBalance : Int) : M AccRef :=
  M.tryCatch
    (do
      let _client ← getClient
      let privateKey ← freshKey E
      let publicKey := pubOf privateKey
      let tx ← doExecAccountCreate E { key := publicKey, initialBalance := initialBalance }
      let receipt ← doGetReceipt E tx
      allocAcc { accountId := receipt.accountId, privateKey := privateKey,
                 publicKey := publicKey, status := receipt.status, balance := initialBalance })
    M.throw

/-- The optional `tokenConfig` argument of `createNFTToken`: a partial JS
object whose absent keys fall back to the defaults via object spread. -/
structure TokenConfig where
  name : Option String := none
  symbol : Option String := none
  maxSupply : Option Int := none
deriving DecidableEq

/-- The token record returned by `createNFTToken`: receipt basics, the fields
of the follow-up `TokenInfoQuery`, and the treasury account reference. -/
structure TokenRec where
  tokenId : Option TokenId
  status : Status
  name : String
  symbol : String
  tokenType : String
  decimals : Int
  totalSupply : Int
  maxSupply : Int
  supplyType : String
  treasuryAccountId : Option AccountId
  supplyKey : Option PrivateKey
  creationTime : String
  treasuryAccount : AccRef
deriving DecidableEq

/-- `createNFTToken` (lines 108-189): merge the config over the defaults,
submit the `TokenCreateTransaction` signed with the treasury key, await the
receipt, run a `TokenInfoQuery` on the new token id, and return the record
combining receipt basics with the queried info. -/
def createNFTToken (E : Env) (treasuryRef : AccRef) (tokenConfig : TokenConfig) : M TokenRec :=
  M.tryCatch
    (do
      let _client ← getClient
      let treasuryAccount ← readAcc treasuryRef
      let cname := tokenConfig.name.getD "diploma"
      let csymbol := tokenConfig.symbol.getD "GRAD"
      let cmaxSupply := tokenConfig.maxSupply.getD 250
      let req : TokenCreateReq :=
        { name := cname, symbol := csymbol, tokenType := "NonFungibleUnique",
          decimals := 0, initialSupply := 0, treasury := treasuryAccount.accountId,
          supplyType := "Finite", maxSupply := cmaxSupply,
          supplyKey := treasuryAccount.privateKey, signedBy := [treasuryAccount.privateKey] }
      let tx ← doExecTokenCreate E req
      let receipt ← doGetReceipt E tx
      let tokenId := receipt.tokenId
      let status := receipt.status
      let tokenInfo ← doQueryTokenInfo E tokenId
      pure { tokenId := tokenId, status := status,
             name := tokenInfo.name, symbol := tokenInfo.symbol,
             tokenType := tokenInfo.tokenType, decimals := tokenInfo.decimals,
             totalSupply := tokenInfo.totalSupply, maxSupply := tokenInfo.maxSupply,
             supplyType := tokenInfo.supplyType, treasuryAccountId := tokenInfo.treasuryAccountId,
             supplyKey := tokenInfo.supplyKey, creationTime := tokenInfo.creationTime,
             treasuryAccount := treasuryRef })
    M.throw

/-- A JS metadata value, distinguishing strings (kept as-is by `mintNFTs`)
from non-string values; a non-string value is represented closely enough to
render its `JSON.stringify` image. -/
inductive JsVal where
  | vstr (s : String)
  | vnum (n : Int)
  | vobj (fields : List (String × String))
deriving DecidableEq

/-- `JSON.stringify` on the modelled values (string escaping not modelled:
the repository's metadata contains none). -/
def jsonStringify : JsVal → String
  | .vstr s => "\"" ++ s ++ "\""
  | .vnum n => toString n
  | .vobj fields =>
      "\x7b" ++ String.intercalate ","
        (fields.map (fun p => "\"" ++ p.1 ++ "\":\"" ++ p.2 ++ "\"")) ++ "\x7d"

/-- The `metadataArray` argument of `mintNFTs`: either a JS array or a single
non-array value (`Array.isArray` distinguishes them). -/
inductive MetaArg where
  | arr (l : List JsVal)
  | single (v : JsVal)
deriving DecidableEq

/-- `Array.isArray(metadataArray) ? metadataArray : [metadataArray]`. -/
def normalizeMetaArg : MetaArg → List JsVal
  | .arr l => l
  | .single v => [v]

/-- `Buffer.from(typeof metadata === 'string' ? metadata : JSON.stringify(metadata))`,
with the buffer kept as the string it encodes. -/
def metaBuffer : JsVal → String
  | .vstr s => s
  | v => jsonStringify v

/-- `serials?.length || 0`. -/
def jsCount : Option (List Int) → Nat
  | none => 0
  | some l => l.length

/-- The mint result record returned by `mintNFTs`. -/
structure MintResult where
  serials : Option (List Int)
  status : Status
  tokenId : Option TokenId
  count : Nat
  mintedAt : String
deriving DecidableEq

/-- `mintNFTs` (lines 197-241): wrap a non-array argument, convert every
element to a buffer, submit one `TokenMintTransaction` signed with the
treasury key of the token record, await the receipt and return the mint
record. -/
def mintNFTs (E : Env) (tokenData : TokenRec) (metadataArray : MetaArg) : M MintResult :=
  M.tryCatch
    (do
      let _client ← getClient
      let metadatas := normalizeMetaArg metadataArray
      let metadataBuffers := metadatas.map metaBuffer
      let treasuryAccount ← readAcc tokenData.treasuryAccount
      let req : TokenMintReq :=
        { tokenId := tokenData.tokenId, metadata := metadataBuffers,
          signedBy := [treasuryAccount.privateKey] }
      let tx ← doExecTokenMint E req
      let receipt ← doGetReceipt E tx
      let serials := receipt.serials
      let mintedAt ← nowStr E
      pure { serials := serials, status := receipt.status, tokenId := tokenData.tokenId,
             count := jsCount serials, mintedAt := mintedAt })
    M.throw

/-- The record returned by `getTokenBasicInfo`. -/
structure BasicTokenInfo where
  tokenId : Option String
  name : String
  symbol : String
  ttype : String
  totalSupply : String
  maxSupply : String
  treasury : Option String
deriving DecidableEq

/-- `getTokenBasicInfo` (lines 248-271): one `TokenInfoQuery`, reshaped into
strings (the source field `type` is named `ttype` here). -/
def getTokenBasicInfo (E : Env) (tokenId : Option TokenId) : M BasicTokenInfo :=
  M.tryCatch
    (do
      let _client ← getClient
      let tokenInfo ← doQueryTokenInfo E tokenId
      pure { tokenId := tokenInfo.tokenId.map toString, name := tokenInfo.name,
             symbol := tokenInfo.symbol, ttype := tokenInfo.tokenType,
             totalSupply := toString tokenInfo.totalSupply,
             maxSupply := toString tokenInfo.maxSupply,
             treasury := tokenInfo.treasuryAccountId.map toString })
    M.throw

/-- The record returned by `associateTokenToAccount`. -/
structure AssociateResult where
  status : Status
  accountId : Option AccountId
  tokenId : Option TokenId
  associatedAt : String
deriving DecidableEq

/-- `associateTokenToAccount` (lines 279-308): one `TokenAssociateTransaction`
signed with the account's key, await the receipt, return the record. -/
def associateTokenToAccount (E : Env) (accountRef : AccRef) (tokenId : Option TokenId) : M AssociateResult :=
  M.tryCatch
    (do
      let _client ← getClient
      let account ← readAcc accountRef
      let req : TokenAssociateReq :=
        { accountId := account.accountId, tokenIds := [tokenId], signedBy := [account.privateKey] }
      let tx ← doExecTokenAssociate E req
      let receipt ← doGetReceipt E tx
      let associatedAt ← nowStr E
      pure { status := receipt.status, accountId := account.accountId,
             tokenId := tokenId, associatedAt := associatedAt })
    M.throw

/-- The `account` argument of `getAccountBalance`: an account-id string or an
account object (`typeof account === 'string'`). -/
inductive AccountArg where
  | str (s : String)
  | ref (r : AccRef)
deriving DecidableEq

/-- The record returned by `getAccountBalance`. -/
structure BalanceResult where
  accountId : Option String
  hbarBalance : String
  tokens : List (String × String)
deriving DecidableEq

/-- `getAccountBalance` (lines 315-349): resolve the account id, run one
`AccountBalanceQuery`, and reshape the token map into string pairs (empty
when the map is absent or empty). -/
def getAccountBalance (E : Env) (account : AccountArg) : M BalanceResult :=
  M.tryCatch
    (do
      let _client ← getClient
      let accountId ← (match account with
        | AccountArg.str s => pure (some s)
        | AccountArg.ref r => do
            let a ← readAcc r
            pure a.accountId)
      let balance ← doQueryBalance E accountId
      let tokens := (match balance.tokens with
        | some l => if l.length > 0 then l.map (fun p => (p.1, toString p.2)) else []
        | none => [])
      pure { accountId := accountId.map toString, hbarBalance := toString balance.hbars,
             tokens := tokens })
    M.throw

/-- The record returned by `transferNFT`. -/
structure TransferResult where
  status : Status
  tokenId : Option TokenId
  serialNumber : Int
  fromAccount : Option String
  toAccount : Option String
  transferredAt : String
deriving DecidableEq

/-- `transferNFT` (lines 359-398): one `TransferTransaction` with a single
NFT transfer, signed by sender and receiver, await the receipt, return the
record. -/
def transferNFT (E : Env) (tokenId : Option TokenId) (fromRef toRef : AccRef) (serialNumber : Int) : M TransferResult :=
  M.tryCatch
    (do
      let _client ← getClient
      let fromAccount ← readAcc fromRef
      let toAccount ← readAcc toRef
      let req : TransferReq :=
        { tokenId := tokenId, serialNumber := serialNumber,
          fromId := fromAccount.accountId, toId := toAccount.accountId,
          signedBy := [fromAccount.privateKey, toAccount.privateKey] }
      let tx ← doExecTransfer E req
      let receipt ← doGetReceipt E tx
      let transferredAt ← nowStr E
      pure { status := receipt.status, tokenId := tokenId, serialNumber := serialNumber,
             fromAccount := fromAccount.accountId.map toString,
             toAccount := toAccount.accountId.map toString,
             transferredAt := transferredAt })
    M.throw

/-- JS `haystack.includes(needle)` on strings. -/
def strIncludes (s sub : String) : Bool :=
  (List.range (s.length + 1)).any (fun i => (s.toList.drop i).take sub.length == sub.toList)

/-- The `summary` part of the workflow result (source field names `from` and
`to` are Lean keywords, rendered `fromAcc`/`toAcc`). -/
structure TransferSummary where
  tokenId : Option String
  serialNumber : Int
  fromAcc : Option String
  toAcc : Option String
  success : Bool
deriving DecidableEq

structure BalancePair where
  sender : BalanceResult
  receiver : BalanceResult
deriving DecidableEq

structure Balances where
  before : BalancePair
  after : BalancePair
deriving DecidableEq

/-- The record returned by `transferNFTWithBalanceCheck`. -/
structure TransferWfResult where
  transferResult : TransferResult
  balances : Balances
  summary : TransferSummary
deriving DecidableEq

/-- `transferNFTWithBalanceCheck` (lines 408-476): balances before, associate
the token to the receiver tolerating only an error whose message contains
`TOKEN_ALREADY_ASSOCIATED`, transfer, balances after, and assemble the
summary. -/
def transferNFTWithBalanceCheck (E : Env) (tokenId : Option TokenId) (fromRef toRef : AccRef) (serialNumber : Int) : M TransferWfResult :=
  M.tryCatch
    (do
      let beforeBalanceFrom ← getAccountBalance E (AccountArg.ref fromRef)
      let beforeBalanceTo ← getAccountBalance E (AccountArg.ref toRef)
      M.tryCatch
        (do
          let _ ← associateTokenToAccount E toRef tokenId
          pure ())
        (fun e =>
          if strIncludes e.message "TOKEN_ALREADY_ASSOCIATED" then M.pure () else M.throw e)
      let transferResult ← transferNFT E tokenId fromRef toRef serialNumber
      let afterBalanceFrom ← getAccountBalance E (AccountArg.ref fromRef)
      let afterBalanceTo ← getAccountBalance E (AccountArg.ref toRef)
      let fromAccount ← readAcc fromRef
      let toAccount ← readAcc toRef
      pure { transferResult := transferResult,
             balances := { before := { sender := beforeBalanceFrom, receiver := beforeBalanceTo },
                           after := { sender := afterBalanceFrom, receiver := afterBalanceTo } },
             summary := { tokenId := tokenId.map toString, serialNumber := serialNumber,
                          fromAcc := fromAccount.accountId.map toString,
                          toAcc := toAccount.accountId.map toString,
                          success := decide (transferResult.status = "SUCCESS") } })
    M.throw

/-- The `summary` part of the complete-workflow result. -/
structure CompleteSummary where
  accountId : Option String
  tokenId : Option String
  nftCount : Nat
  serials : List String
deriving DecidableEq

/-- The record returned by `createCompleteNFTCollection`. -/
structure CompleteResult where
  account : AccRef
  tokenData : TokenRec
  mintResult : Option MintResult
  summary : CompleteSummary
deriving DecidableEq

/-- `createCompleteNFTCollection` (lines 485-532): create an account, create
the token, mint only when the metadata array is non-empty (otherwise the mint
result stays `null`), and assemble the summary. -/
def createCompleteNFTCollection (E : Env) (tokenConfig : TokenConfig) (metadataArray : List JsVal) (initialBalance : Int) : M CompleteResult :=
  M.tryCatch
    (do
      let account ← createAccount E initialBalance
      let tokenData ← createNFTToken E account tokenConfig
      let mintResult ← (if metadataArray.length > 0 then do
          let r ← mintNFTs E tokenData (MetaArg.arr metadataArray)
          pure (some r)
        else pure none)
      let acc ← readAcc account
      pure { account := account, tokenData := tokenData, mintResult := mintResult,
             summary := { accountId := acc.accountId.map toString,
                          tokenId := tokenData.tokenId.map toString,
                          nftCount := (match mintResult with
                            | some r => r.count
                            | none => 0),
                          serials := (match mintResult with
                            | some r => (match r.serials with
                              | some l => l.map toString
                              | none => [])
                            | none => []) } })
    M.throw

/-- The static collection metadata supplied by `ipfs-cid.js`.  Modelled from
the spec: the file itself is not part of the provided sources; the spec says a
static list of content identifiers and collection metadata supplies the mint
inputs, so the values are parameters of `mainJs`. -/
structure CollectionInfo where
  name : String
  symbol : String
  maxSupply : Int
  totalCIDs : Nat
deriving DecidableEq

/-- The record `main` returns from its `try` block. -/
structure MainRecord where
  university : AccRef
  bob : AccRef
  token : TokenRec
  mintResult : MintResult
  transferResult : TransferWfResult
deriving DecidableEq

/-- index.js line 45 evaluates the bare identifier `alice`, which is declared
nowhere in the script (the first account is bound to `university`), so the
evaluation throws a `ReferenceError` before any balance query is made. -/
def aliceVar : M AccountArg :=
  M.throw { eid := 100, message := "alice is not defined" }

/-- `mintResult.serials[0]` at index.js line 57.  An absent serial list or an
out-of-range index is approximated by a thrown error; in every run embedded
here this point is unreachable, because line 45 throws first. -/
def jsIndexSerials (serials : Option (List Int)) (i : Nat) : M Int :=
  match serials with
  | none => M.throw { eid := 101, message := "TypeError: mintResult.serials is undefined" }
  | some l =>
      match l[i]? with
      | some v => M.pure v
      | none => M.throw { eid := 102, message := "undefined serial index" }

/-- `main` of index.js (lines 4-103): the whole demo chain inside a `try`
whose `catch` logs the error and falls through (so `main` resolves to
`undefined`, here `none`), with `close` in the `finally`. -/
def mainJs (E : Env) (cinfo : CollectionInfo) (cids : List JsVal) : M (Option MainRecord) := do
  let r ← M.tryCatch
    (do
      let university ← createAccount E 500
      let bob ← createAccount E 150
      let token ← createNFTToken E university
        { name := some cinfo.name, symbol := some cinfo.symbol, maxSupply := some cinfo.maxSupply }
      let mintResult ← mintNFTs E token (MetaArg.arr cids)
      let aliceArg ← aliceVar
      let _aliceBalanceBefore ← getAccountBalance E aliceArg
      let _bobBalanceBefore ← getAccountBalance E (AccountArg.ref bob)
      let serial0 ← jsIndexSerials mintResult.serials 0
      let transferResult ← transferNFTWithBalanceCheck E token.tokenId university bob serial0
      let _universityBalanceAfter ← getAccountBalance E (AccountArg.ref university)
      let _bobBalanceAfter ← getAccountBalance E (AccountArg.ref bob)
      pure (some { university := university, bob := bob, token := token,
                   mintResult := mintResult, transferResult := transferResult }))
    (fun _e => M.pure none)
  close
  pure r

/-! ### Derived state descriptions and statement abbreviations -/

/-- The client returned by `getClient`: the stored handle, or a freshly
configured one. -/
def clientNow (s : St) : Client :=
  match s.client with
  | some c => c
  | none => { cid := s.nextClientId, operatorId := s.operatorId,
              operatorKey := s.operatorKey, maxTxFee := 50, maxQueryPayment := 30 }

/-- The state after `getClient`: unchanged, or with the fresh handle stored. -/
def afterClient (s : St) : St :=
  match s.client with
  | some _ => s
  | none => { s with client := some (clientNow s), nextClientId := s.nextClientId + 1 }

/-- The account-create request `createAccount` submits from state `s`. -/
def accCreateReqOf (E : Env) (s : St) (bal : Int) : AccountCreateReq :=
  { key := pubOf (E.keys s.keyCtr), initialBalance := bal }

/-- The token-create request `createNFTToken` submits for treasury account
`ta` and config `cfg`. -/
def tokenCreateReqOf (cfg : TokenConfig) (ta : Account) : TokenCreateReq :=
  { name := cfg.name.getD "diploma", symbol := cfg.symbol.getD "GRAD",
    tokenType := "NonFungibleUnique", decimals := 0, initialSupply := 0,
    treasury := ta.accountId, supplyType := "Finite", maxSupply := cfg.maxSupply.getD 250,
    supplyKey := ta.privateKey, signedBy := [ta.privateKey] }

/-- The mint request `mintNFTs` submits for token record `td`, metadata
argument `arg` and treasury account `ta`. -/
def mintReqOf (td : TokenRec) (arg : MetaArg) (ta : Account) : TokenMintReq :=
  { tokenId := td.tokenId, metadata := (normalizeMetaArg arg).map metaBuffer,
    signedBy := [ta.privateKey] }

/-- The associate request `associateTokenToAccount` submits. -/
def assocReqOf (acc : Account) (tid : Option TokenId) : TokenAssociateReq :=
  { accountId := acc.accountId, tokenIds := [tid], signedBy := [acc.privateKey] }

/-- The transfer request `transferNFT` submits. -/
def transferReqOf (tid : Option TokenId) (sn : Int) (fa ta : Account) : TransferReq :=
  { tokenId := tid, serialNumber := sn, fromId := fa.accountId, toId := ta.accountId,
    signedBy := [fa.privateKey, ta.privateKey] }

/-- A computation neither mutates nor drops any allocated account record. -/
def HeapInv {α : Type} (x : M α) : Prop := ∀ s : St, ((x s).2).heap = s.heap

/-! ### Concrete fixtures used by witnesses and counterexamples -/

/-- An SDK oracle on which every call succeeds. -/
def okSDK : SDK :=
  { execAccountCreate := fun _ => Except.ok 1
    execTokenCreate := fun _ => Except.ok 2
    execTokenMint := fun _ => Except.ok 3
    execTokenAssociate := fun _ => Except.ok 4
    execTransfer := fun _ => Except.ok 5
    getReceipt := fun tx => Except.ok
      { status := "SUCCESS", accountId := some ("0.0.100" ++ toString tx),
        tokenId := some "0.0.777", serials := some [1, 2, 3, 4, 5] }
    queryTokenInfo := fun _ => Except.ok
      { tokenId := some "0.0.777", name := "Degree", symbol := "DEG",
        tokenType := "NON_FUNGIBLE_UNIQUE", decimals := 0, totalSupply := 5,
        maxSupply := 5, supplyType := "FINITE", treasuryAccountId := some "0.0.1001",
        supplyKey := some 11, creationTime := "t0" }
    queryBalance := fun _ => Except.ok { hbars := 100, tokens := some [("0.0.777", 5)] } }

def okEnv : Env :=
  { sdk := okSDK, keys := fun n => n + 11, time := fun n => "2024-01-01T00:00:0" ++ toString n }

/-- The initial state produced by a successful construction with both
operator variables set. -/
def st0 : St :=
  { operatorId := some "0.0.2", operatorKey := some "opkey", client := none,
    nextClientId := 0, heap := [], keyCtr := 0, tick := 0, trace := [] }

def acctA : Account :=
  { accountId := some "0.0.1001", privateKey := 11, publicKey := 11,
    status := "SUCCESS", balance := 500 }

def acctB : Account :=
  { accountId := some "0.0.1002", privateKey := 12, publicKey := 12,
    status := "SUCCESS", balance := 150 }

/-- A state holding two already-created accounts (sender at 0, receiver
at 1). -/
def st2 : St := { st0 with heap := [acctA, acctB], keyCtr := 2 }

def demoToken : TokenRec :=
  { tokenId := some "0.0.777", status := "SUCCESS", name := "Degree", symbol := "DEG",
    tokenType := "NON_FUNGIBLE_UNIQUE", decimals := 0, totalSupply := 0, maxSupply := 5,
    supplyType := "FINITE", treasuryAccountId := some "0.0.1001", supplyKey := some 11,
    creationTime := "t0", treasuryAccount := 0 }

def demoInfo : CollectionInfo :=
  { name := "Graduation", symbol := "GRAD", maxSupply := 5, totalCIDs := 2 }

def demoCids : List JsVal := [JsVal.vstr "ipfs://cid1", JsVal.vstr "ipfs://cid2"]

/-- The client handle `getClient` builds from `st0`. -/
def cliC : Client :=
  { cid := 0, operatorId := some "0.0.2", operatorKey := some "opkey",
    maxTxFee := 50, maxQueryPayment := 30 }

/-- `st0` with the client handle already allocated. -/
def stC : St := { st0 with client := some cliC }

/-- A fixed SDK error used by the failure fixtures. -/
def errE : Err := { eid := 7, message := "INSUFFICIENT_PAYER_BALANCE" }

/-- An environment on which every SDK call fails with `errE`. -/
def failAllEnv : Env :=
  { okEnv with sdk :=
    { execAccountCreate := fun _ => Except.error errE
      execTokenCreate := fun _ => Except.error errE
      execTokenMint := fun _ => Except.error errE
      execTokenAssociate := fun _ => Except.error errE
      execTransfer := fun _ => Except.error errE
      getReceipt := fun _ => Except.error errE
      queryTokenInfo := fun _ => Except.error errE
      queryBalance := fun _ => Except.error errE } }

/-- An environment on which every execute succeeds but every receipt poll
fails with `errE`. -/
def failReceiptEnv : Env :=
  { okEnv with sdk := { okSDK with getReceipt := fun _ => Except.error errE } }

/-- An environment on which only the token-association transaction fails,
with the given error. -/
def assocFailEnv (e : Err) : Env :=
  { okEnv with sdk := { okSDK with execTokenAssociate := fun _ => Except.error e } }

/-- An association error whose message contains `TOKEN_ALREADY_ASSOCIATED`. -/
def eAssoc : Err := { eid := 21, message := "receipt error TOKEN_ALREADY_ASSOCIATED_TO_ACCOUNT" }

/-- An association error whose message does not contain
`TOKEN_ALREADY_ASSOCIATED`. -/
def eOther : Err := { eid := 22, message := "INVALID_SIGNATURE" }

/-- `okEnv` with the local clock frozen at `TA`. -/
def envTimeA : Env := { sdk := okSDK, keys := fun n => n + 11, time := fun _ => "TA" }

/-- `envTimeA` with only the local clock changed, to `TB`; the SDK oracle and
key stream are the very same. -/
def envTimeB : Env := { envTimeA with time := fun _ => "TB" }

/-- The receipt issued by `statusEnv`: like `okSDK` receipts but with the
given status. -/
def statusReceipt (stx : Status) (tx : TxRef) : Receipt :=
  { status := stx, accountId := some ("0.0.100" ++ toString tx),
    tokenId := some "0.0.777", serials := some [1, 2, 3, 4, 5] }

/-- `okEnv` with every receipt carrying the given status. -/
def statusEnv (stx : Status) : Env :=
  { okEnv with sdk := { okSDK with getReceipt := fun tx => Except.ok (statusReceipt stx tx) } }

/-! ### Run lemmas for the embedding monad -/

theorem run_bind {α β : Type} (x : M α) (f : α → M β) (s : St) :
    (x >>= f) s = (match x s with
      | (Except.ok a, s1) => f a s1
      | (Except.error e, s1) => (Except.error e, s1)) := rfl

theorem run_pure {α : Type} (a : α) (s : St) : (pure a : M α) s = (Except.ok a, s) := rfl

theorem run_tryCatch {α : Type} (x : M α) (h : Err → M α) (s : St) :
    M.tryCatch x h s = (match x s with
      | (Except.ok a, s1) => (Except.ok a, s1)
      | (Except.error e, s1) => h e s1) := rfl

/-- A `catch` block that only logs and rethrows is the identity on the
computation. -/
theorem tryCatch_rethrow {α : Type} (x : M α) : M.tryCatch x M.throw = x := by
  funext s
  unfold M.tryCatch
  rcases h : x s with ⟨r, s1⟩
  cases r <;> simp [M.throw]

theorem getClient_eq (s : St) : getClient s = (Except.ok (clientNow s), afterClient s) := by
  cases h : s.client <;> simp [getClient, clientNow, afterClient, h]

@[simp] theorem afterClient_trace (s : St) : (afterClient s).trace = s.trace := by
  cases h : s.client <;> simp [afterClient, h]

@[simp] theorem afterClient_heap (s : St) : (afterClient s).heap = s.heap := by
  cases h : s.client <;> simp [afterClient, h]

@[simp] theorem afterClient_keyCtr (s : St) : (afterClient s).keyCtr = s.keyCtr := by
  cases h : s.client <;> simp [afterClient, h]

@[simp] theorem afterClient_tick (s : St) : (afterClient s).tick = s.tick := by
  cases h : s.client <;> simp [afterClient, h]

@[simp] theorem afterClient_client (s : St) : (afterClient s).client = some (clientNow s) := by
  cases h : s.client <;> simp [afterClient, clientNow, h]

theorem afterClient_of_some {s : St} {c : Client} (h : s.client = some c) : afterClient s = s := by
  simp [afterClient, h]

theorem clientNow_of_some {s : St} {c : Client} (h : s.client = some c) : clientNow s = c := by
  simp [clientNow, h]

/-! ### Heap invariance: no service method writes to an account record -/

theorem HeapInv.bindInv {α β : Type} {x : M α} {f : α → M β}
    (hx : HeapInv x) (hf : ∀ a, HeapInv (f a)) : HeapInv (x >>= f) := by
  intro s
  rw [run_bind]
  rcases h : x s with ⟨r, s1⟩
  have hs1 : s1.heap = s.heap := by
    have hx2 := hx s
    rw [h] at hx2
    exact hx2
  cases r with
  | ok a => exact (hf a s1).trans hs1
  | error e => exact hs1

theorem HeapInv.tryCatchInv {α : Type} {x : M α} {h : Err → M α}
    (hx : HeapInv x) (hh : ∀ e, HeapInv (h e)) : HeapInv (M.tryCatch x h) := by
  intro s
  unfold M.tryCatch
  rcases hx1 : x s with ⟨r, s1⟩
  have hs1 : s1.heap = s.heap := by
    have hx2 := hx s
    rw [hx1] at hx2
    exact hx2
  cases r with
  | ok a => exact hs1
  | error e => exact (hh e s1).trans hs1

theorem HeapInv.pureInv {α : Type} (a : α) : HeapInv (pure a : M α) := fun _ => rfl

theorem HeapInv.mpureInv {α : Type} (a : α) : HeapInv (M.pure a : M α) := fun _ => rfl

theorem HeapInv.throwInv {α : Type} (e : Err) : HeapInv (M.throw e : M α) := fun _ => rfl

theorem HeapInv.sdkCallInv {α : Type} (c : Call) (r : Except Err α) : HeapInv (sdkCall c r) :=
  fun _ => rfl

theorem HeapInv.getClientInv : HeapInv getClient := by
  intro s
  rw [getClient_eq]
  exact afterClient_heap s

theorem HeapInv.readAccInv (r : AccRef) : HeapInv (readAcc r) := by
  intro s
  cases h : s.heap[r]? <;> simp [readAcc, h]

theorem HeapInv.freshKeyInv (E : Env) : HeapInv (freshKey E) := fun _ => rfl

theorem HeapInv.nowStrInv (E : Env) : HeapInv (nowStr E) := fun _ => rfl

theorem heapInv_createNFTToken (E : Env) (ref : AccRef) (cfg : TokenConfig) :
    HeapInv (createNFTToken E ref cfg) := by
  unfold createNFTToken doExecTokenCreate doGetReceipt doQueryTokenInfo
  refine HeapInv.tryCatchInv ?_ (fun e => HeapInv.throwInv e)
  refine HeapInv.bindInv HeapInv.getClientInv (fun _ => ?_)
  refine HeapInv.bindInv (HeapInv.readAccInv _) (fun ta => ?_)
  dsimp only
  refine HeapInv.bindInv (HeapInv.sdkCallInv _ _) (fun tx => ?_)
  refine HeapInv.bindInv (HeapInv.sdkCallInv _ _) (fun rc => ?_)
  dsimp only
  refine HeapInv.bindInv (HeapInv.sdkCallInv _ _) (fun ti => ?_)
  exact HeapInv.pureInv _

theorem heapInv_mintNFTs (E : Env) (td : TokenRec) (arg : MetaArg) :
    HeapInv (mintNFTs E td arg) := by
  unfold mintNFTs doExecTokenMint doGetReceipt
  refine HeapInv.tryCatchInv ?_ (fun e => HeapInv.throwInv e)
  refine HeapInv.bindInv HeapInv.getClientInv (fun _ => ?_)
  dsimp only
  refine HeapInv.bindInv (HeapInv.readAccInv _) (fun ta => ?_)
  dsimp only
  refine HeapInv.bindInv (HeapInv.sdkCallInv _ _) (fun tx => ?_)
  refine HeapInv.bindInv (HeapInv.sdkCallInv _ _) (fun rc => ?_)
  dsimp only
  refine HeapInv.bindInv (HeapInv.nowStrInv E) (fun t => ?_)
  exact HeapInv.pureInv _

theorem heapInv_associateTokenToAccount (E : Env) (r : AccRef) (tid : Option TokenId) :
    HeapInv (associateTokenToAccount E r tid) := by
  unfold associateTokenToAccount doExecTokenAssociate doGetReceipt
  refine HeapInv.tryCatchInv ?_ (fun e => HeapInv.throwInv e)
  refine HeapInv.bindInv HeapInv.getClientInv (fun _ => ?_)
  refine HeapInv.bindInv (HeapInv.readAccInv _) (fun a => ?_)
  dsimp only
  refine HeapInv.bindInv (HeapInv.sdkCallInv _ _) (fun tx => ?_)
  refine HeapInv.bindInv (HeapInv.sdkCallInv _ _) (fun rc => ?_)
  refine HeapInv.bindInv (HeapInv.nowStrInv E) (fun t => ?_)
  exact HeapInv.pureInv _

theorem heapInv_getAccountBalance (E : Env) (a : AccountArg) :
    HeapInv (getAccountBalance E a) := by
  unfold getAccountBalance doQueryBalance
  refine HeapInv.tryCatchInv ?_ (fun e => HeapInv.throwInv e)
  refine HeapInv.bindInv HeapInv.getClientInv (fun _ => ?_)
  refine HeapInv.bindInv ?_ (fun aid => ?_)
  · cases a with
    | str s => exact HeapInv.pureInv _
    | ref r => exact HeapInv.bindInv (HeapInv.readAccInv _) (fun acc => HeapInv.pureInv _)
  · dsimp only
    refine HeapInv.bindInv (HeapInv.sdkCallInv _ _) (fun b => ?_)
    dsimp only
    exact HeapInv.pureInv _

theorem heapInv_transferNFT (E : Env) (tid : Option TokenId) (fr toR : AccRef) (sn : Int) :
    HeapInv (transferNFT E tid fr toR sn) := by
  unfold transferNFT doExecTransfer doGetReceipt
  refine HeapInv.tryCatchInv ?_ (fun e => HeapInv.throwInv e)
  refine HeapInv.bindInv HeapInv.getClientInv (fun _ => ?_)
  refine HeapInv.bindInv (HeapInv.readAccInv _) (fun fa => ?_)
  refine HeapInv.bindInv (HeapInv.readAccInv _) (fun ta => ?_)
  dsimp only
  refine HeapInv.bindInv (HeapInv.sdkCallInv _ _) (fun tx => ?_)
  refine HeapInv.bindInv (HeapInv.sdkCallInv _ _) (fun rc => ?_)
  refine HeapInv.bindInv (HeapInv.nowStrInv E) (fun t => ?_)
  exact HeapInv.pureInv _

theorem heapInv_transferWf (E : Env) (tid : Option TokenId) (fr toR : AccRef) (sn : Int) :
    HeapInv (transferNFTWithBalanceCheck E tid fr toR sn) := by
  unfold transferNFTWithBalanceCheck
  refine HeapInv.tryCatchInv ?_ (fun e => HeapInv.throwInv e)
  refine HeapInv.bindInv (heapInv_getAccountBalance E _) (fun b1 => ?_)
  refine HeapInv.bindInv (heapInv_getAccountBalance E _) (fun b2 => ?_)
  refine HeapInv.bindInv (HeapInv.tryCatchInv ?_ ?_) (fun u => ?_)
  · exact HeapInv.bindInv (heapInv_associateTokenToAccount E _ _) (fun ar => HeapInv.pureInv _)
  · intro e
    dsimp only
    split
    · exact HeapInv.mpureInv _
    · exact HeapInv.throwInv _
  · refine HeapInv.bindInv (heapInv_transferNFT E _ _ _ _) (fun tr => ?_)
    refine HeapInv.bindInv (heapInv_getAccountBalance E _) (fun a1 => ?_)
    refine HeapInv.bindInv (heapInv_getAccountBalance E _) (fun a2 => ?_)
    refine HeapInv.bindInv (HeapInv.readAccInv _) (fun fa => ?_)
    refine HeapInv.bindInv (HeapInv.readAccInv _) (fun ta => ?_)
    exact HeapInv.pureInv _

/-! ### Claim theorems -/

/-- C1: the orchestrating script's `main` is supposed to chain account
creation, token creation, minting, balance queries, the transfer and the
final balance queries, and return the record `{university, bob, token,
mintResult, transferResult}` when every SDK call succeeds.  The code does
not: even with an all-success SDK oracle, `main` stops after minting because
line 45 reads the undeclared identifier `alice`; the catch swallows the
`ReferenceError`, no balance query and no transfer is ever issued, and `main`
returns `undefined` (`none`) instead of the record. -/
theorem C1_main_alice_bug :
    constructorJs (some "0.0.2") (some "opkey") = Except.ok st0 ∧
    (mainJs okEnv demoInfo demoCids st0).1 = Except.ok none ∧
    (mainJs okEnv demoInfo demoCids st0).2.trace.map Call.kind =
      [CallKind.execAccountCreate, CallKind.getReceipt,
       CallKind.execAccountCreate, CallKind.getReceipt,
       CallKind.execTokenCreate, CallKind.getReceipt, CallKind.queryTokenInfo,
       CallKind.execTokenMint, CallKind.getReceipt, CallKind.clientClose] :=
  ⟨rfl, rfl, rfl⟩

/-- C6: the service holds at most one client handle: `getClient` returns the
stored handle unchanged when one exists, constructs and stores a configured
handle only when the stored field is `null` (and a repeated call then returns
that same handle with the state unchanged), and `close` resets the stored
field to `null` (doing nothing when it already is). -/
theorem C6_client_singleton :
    (∀ s c0, s.client = some c0 → getClient s = (Except.ok c0, s)) ∧
    (∀ s, s.client = none →
      getClient s =
        (Except.ok (clientNow s),
          { s with client := some (clientNow s), nextClientId := s.nextClientId + 1 })) ∧
    (∀ s, getClient (getClient s).2 = ((getClient s).1, (getClient s).2)) ∧
    (∀ s, ((close s).2).client = none) ∧
    (∀ s, s.client = none → close s = (Except.ok (), s)) := by
  refine ⟨?_, ?_, ?_, ?_, ?_⟩
  · intro s c0 h
    simp [getClient, h]
  · intro s h
    simp [getClient, clientNow, h]
  · intro s
    rw [getClient_eq, getClient_eq]
    dsimp only
    rw [clientNow_of_some (afterClient_client s), afterClient_of_some (afterClient_client s)]
  · intro s
    cases h : s.client <;> simp [close, h]
  · intro s h
    simp [close, h]

/-- Witness for C6 at the concrete states `stC` (handle stored) and `st0`
(no handle). -/
theorem C6_client_singleton_witness :
    getClient stC = (Except.ok cliC, stC) ∧
    getClient st0 =
      (Except.ok (clientNow st0), { st0 with client := some (clientNow st0), nextClientId := 1 }) ∧
    close st0 = (Except.ok (), st0) :=
  ⟨C6_client_singleton.1 stC cliC rfl,
   C6_client_singleton.2.1 st0 rfl,
   C6_client_singleton.2.2.2.2 st0 rfl⟩

/-- C9: constructing `HederaNftService` throws (allocating no client) exactly
when OPERATOR_ID or OPERATOR_KEY is unset or empty; with both set and
non-empty it succeeds and the stored client field is `null`. -/
theorem C9_constructor_env_check (oid okey : Option String) :
    ((oid = none ∨ oid = some "" ∨ okey = none ∨ okey = some "") →
      constructorJs oid okey =
        Except.error { eid := 1, message := "Please set OPERATOR_ID and OPERATOR_KEY in your .env file" }) ∧
    (oid ≠ none → oid ≠ some "" → okey ≠ none → okey ≠ some "" →
      constructorJs oid okey =
        Except.ok { operatorId := oid, operatorKey := okey, client := none,
                    nextClientId := 0, heap := [], keyCtr := 0, tick := 0, trace := [] }) := by
  constructor
  · intro h
    rcases h with h | h | h | h <;> subst h <;> simp [constructorJs, jsFalsy]
  · intro h1 h2 h3 h4
    have g1 : jsFalsy oid = false := by
      cases oid with
      | none => exact absurd rfl h1
      | some s =>
          have hs : s ≠ "" := fun hs => h2 (by rw [hs])
          simp only [jsFalsy, beq_eq_false_iff_ne, ne_eq]
          exact hs
    have g2 : jsFalsy okey = false := by
      cases okey with
      | none => exact absurd rfl h3
      | some s =>
          have hs : s ≠ "" := fun hs => h4 (by rw [hs])
          simp only [jsFalsy, beq_eq_false_iff_ne, ne_eq]
          exact hs
    simp [constructorJs, g1, g2]

/-- Witness for C9: an unset OPERATOR_ID makes construction throw; both
variables set and non-empty make it succeed with a `null` client field. -/
theorem C9_constructor_env_check_witness :
    constructorJs none (some "opkey") =
      Except.error { eid := 1, message := "Please set OPERATOR_ID and OPERATOR_KEY in your .env file" } ∧
    constructorJs (some "0.0.2") (some "opkey") = Except.ok st0 :=
  ⟨(C9_constructor_env_check none (some "opkey")).1 (Or.inl rfl),
   (C9_constructor_env_check (some "0.0.2") (some "opkey")).2
     (by decide) (by decide) (by decide) (by decide)⟩

/-- C8: account records are immutable once created: none of `createNFTToken`,
`mintNFTs`, `associateTokenToAccount`, `getAccountBalance`, `transferNFT`,
`transferNFTWithBalanceCheck` changes the heap of account records, on any
input and in any state, so every field of every account record is identical
before and after each call. -/
theorem C8_account_records_immutable :
    (∀ (E : Env) (ref : AccRef) (cfg : TokenConfig) (s : St),
      ((createNFTToken E ref cfg) s).2.heap = s.heap) ∧
    (∀ (E : Env) (td : TokenRec) (arg : MetaArg) (s : St),
      ((mintNFTs E td arg) s).2.heap = s.heap) ∧
    (∀ (E : Env) (r : AccRef) (tid : Option TokenId) (s : St),
      ((associateTokenToAccount E r tid) s).2.heap = s.heap) ∧
    (∀ (E : Env) (a : AccountArg) (s : St),
      ((getAccountBalance E a) s).2.heap = s.heap) ∧
    (∀ (E : Env) (tid : Option TokenId) (fr toR : AccRef) (sn : Int) (s : St),
      ((transferNFT E tid fr toR sn) s).2.heap = s.heap) ∧
    (∀ (E : Env) (tid : Option TokenId) (fr toR : AccRef) (sn : Int) (s : St),
      ((transferNFTWithBalanceCheck E tid fr toR sn) s).2.heap = s.heap) :=
  ⟨fun E ref cfg => heapInv_createNFTToken E ref cfg,
   fun E td arg => heapInv_mintNFTs E td arg,
   fun E r tid => heapInv_associateTokenToAccount E r tid,
   fun E a => heapInv_getAccountBalance E a,
   fun E tid fr toR sn => heapInv_transferNFT E tid fr toR sn,
   fun E tid fr toR sn => heapInv_transferWf E tid fr toR sn⟩

/-- C3: when an underlying SDK call throws, the service method returns that
same error object unchanged and issues no further SDK call in that
invocation: shown for every method at its possible SDK failure points (both
the execute and the receipt step for the three methods the spec cites, the
first failing SDK call for the others), each time with the final trace
extending the initial one by exactly the calls made up to and including the
failing one. -/
theorem C3_rethrow_unchanged (E : Env) (s : St) (e : Err) :
    (∀ bal, E.sdk.execAccountCreate (accCreateReqOf E s bal) = Except.error e →
      (createAccount E bal s).1 = Except.error e ∧
      (createAccount E bal s).2.trace = s.trace ++ [Call.execAccountCreate (accCreateReqOf E s bal)]) ∧
    (∀ bal tx, E.sdk.execAccountCreate (accCreateReqOf E s bal) = Except.ok tx →
      E.sdk.getReceipt tx = Except.error e →
      (createAccount E bal s).1 = Except.error e ∧
      (createAccount E bal s).2.trace =
        s.trace ++ [Call.execAccountCreate (accCreateReqOf E s bal), Call.getReceipt tx]) ∧
    (∀ td arg ta, s.heap[td.treasuryAccount]? = some ta →
      E.sdk.execTokenMint (mintReqOf td arg ta) = Except.error e →
      (mintNFTs E td arg s).1 = Except.error e ∧
      (mintNFTs E td arg s).2.trace = s.trace ++ [Call.execTokenMint (mintReqOf td arg ta)]) ∧
    (∀ td arg ta tx, s.heap[td.treasuryAccount]? = some ta →
      E.sdk.execTokenMint (mintReqOf td arg ta) = Except.ok tx →
      E.sdk.getReceipt tx = Except.error e →
      (mintNFTs E td arg s).1 = Except.error e ∧
      (mintNFTs E td arg s).2.trace =
        s.trace ++ [Call.execTokenMint (mintReqOf td arg ta), Call.getReceipt tx]) ∧
    (∀ tid fr toR sn fa ta, s.heap[fr]? = some fa → s.heap[toR]? = some ta →
      E.sdk.execTransfer (transferReqOf tid sn fa ta) = Except.error e →
      (transferNFT E tid fr toR sn s).1 = Except.error e ∧
      (transferNFT E tid fr toR sn s).2.trace =
        s.trace ++ [Call.execTransfer (transferReqOf tid sn fa ta)]) ∧
    (∀ tid fr toR sn fa ta tx, s.heap[fr]? = some fa → s.heap[toR]? = some ta →
      E.sdk.execTransfer (transferReqOf tid sn fa ta) = Except.ok tx →
      E.sdk.getReceipt tx = Except.error e →
      (transferNFT E tid fr toR sn s).1 = Except.error e ∧
      (transferNFT E tid fr toR sn s).2.trace =
        s.trace ++ [Call.execTransfer (transferReqOf tid sn fa ta), Call.getReceipt tx]) ∧
    (∀ ref cfg ta, s.heap[ref]? = some ta →
      E.sdk.execTokenCreate (tokenCreateReqOf cfg ta) = Except.error e →
      (createNFTToken E ref cfg s).1 = Except.error e ∧
      (createNFTToken E ref cfg s).2.trace =
        s.trace ++ [Call.execTokenCreate (tokenCreateReqOf cfg ta)]) ∧
    (∀ r tid acc, s.heap[r]? = some acc →
      E.sdk.execTokenAssociate (assocReqOf acc tid) = Except.error e →
      (associateTokenToAccount E r tid s).1 = Except.error e ∧
      (associateTokenToAccount E r tid s).2.trace =
        s.trace ++ [Call.execTokenAssociate (assocReqOf acc tid)]) ∧
    (∀ aid, E.sdk.queryBalance (some aid) = Except.error e →
      (getAccountBalance E (AccountArg.str aid) s).1 = Except.error e ∧
      (getAccountBalance E (AccountArg.str aid) s).2.trace =
        s.trace ++ [Call.queryBalance (some aid)]) ∧
    (∀ tid, E.sdk.queryTokenInfo tid = Except.error e →
      (getTokenBasicInfo E tid s).1 = Except.error e ∧
      (getTokenBasicInfo E tid s).2.trace = s.trace ++ [Call.queryTokenInfo tid]) ∧
    (∀ tid fr toR sn fa, s.heap[fr]? = some fa →
      E.sdk.queryBalance fa.accountId = Except.error e →
      (transferNFTWithBalanceCheck E tid fr toR sn s).1 = Except.error e ∧
      (transferNFTWithBalanceCheck E tid fr toR sn s).2.trace =
        s.trace ++ [Call.queryBalance fa.accountId]) ∧
    (∀ cfg meta bal, E.sdk.execAccountCreate (accCreateReqOf E s bal) = Except.error e →
      (createCompleteNFTCollection E cfg meta bal s).1 = Except.error e ∧
      (createCompleteNFTCollection E cfg meta bal s).2.trace =
        s.trace ++ [Call.execAccountCreate (accCreateReqOf E s bal)]) := by
  refine ⟨?_, ?_, ?_, ?_, ?_, ?_, ?_, ?_, ?_, ?_, ?_, ?_⟩
  · intro bal h
    unfold accCreateReqOf at h ⊢
    unfold createAccount
    rw [tryCatch_rethrow]
    simp [run_bind, getClient_eq, freshKey, doExecAccountCreate, sdkCall, h]
  · intro bal tx h1 h2
    unfold accCreateReqOf at h1 ⊢
    unfold createAccount
    rw [tryCatch_rethrow]
    simp [run_bind, getClient_eq, freshKey, doExecAccountCreate, doGetReceipt, sdkCall, h1, h2]
  · intro td arg ta hh h
    unfold mintReqOf at h ⊢
    unfold mintNFTs
    rw [tryCatch_rethrow]
    simp [run_bind, getClient_eq, readAcc, doExecTokenMint, sdkCall, hh, h]
  · intro td arg ta tx hh h1 h2
    unfold mintReqOf at h1 ⊢
    unfold mintNFTs
    rw [tryCatch_rethrow]
    simp [run_bind, getClient_eq, readAcc, doExecTokenMint, doGetReceipt, sdkCall, hh, h1, h2]
  · intro tid fr toR sn fa ta hf ht h
    unfold transferReqOf at h ⊢
    unfold transferNFT
    rw [tryCatch_rethrow]
    simp [run_bind, getClient_eq, readAcc, doExecTransfer, sdkCall, hf, ht, h]
  · intro tid fr toR sn fa ta tx hf ht h1 h2
    unfold transferReqOf at h1 ⊢
    unfold transferNFT
    rw [tryCatch_rethrow]
    simp [run_bind, getClient_eq, readAcc, doExecTransfer, doGetReceipt, sdkCall, hf, ht, h1, h2]
  · intro ref cfg ta hh h
    unfold tokenCreateReqOf at h ⊢
    unfold createNFTToken
    rw [tryCatch_rethrow]
    simp [run_bind, getClient_eq, readAcc, doExecTokenCreate, sdkCall, hh, h]
  · intro r tid acc hh h
    unfold assocReqOf at h ⊢
    unfold associateTokenToAccount
    rw [tryCatch_rethrow]
    simp [run_bind, getClient_eq, readAcc, doExecTokenAssociate, sdkCall, hh, h]
  · intro aid h
    unfold getAccountBalance
    rw [tryCatch_rethrow]
    simp [run_bind, run_pure, getClient_eq, doQueryBalance, sdkCall, h]
  · intro tid h
    unfold getTokenBasicInfo
    rw [tryCatch_rethrow]
    simp [run_bind, getClient_eq, doQueryTokenInfo, sdkCall, h]
  · intro tid fr toR sn fa hh hq
    unfold transferNFTWithBalanceCheck getAccountBalance
    simp [tryCatch_rethrow, run_bind, run_pure, getClient_eq, readAcc, doQueryBalance, sdkCall,
          hh, hq]
  · intro cfg meta bal h
    unfold accCreateReqOf at h ⊢
    unfold createCompleteNFTCollection createAccount
    simp [tryCatch_rethrow, run_bind, getClient_eq, freshKey, doExecAccountCreate, sdkCall, h]

/-- Witness for C3: each failure point instantiated concretely, on the
all-failing oracle `failAllEnv` and the receipt-failing oracle
`failReceiptEnv`, from the two-account state `st2`. -/
theorem C3_rethrow_unchanged_witness :
    ((createAccount failAllEnv 500 st2).1 = Except.error errE ∧
      (createAccount failAllEnv 500 st2).2.trace =
        st2.trace ++ [Call.execAccountCreate (accCreateReqOf failAllEnv st2 500)]) ∧
    ((createAccount failReceiptEnv 500 st2).1 = Except.error errE ∧
      (createAccount failReceiptEnv 500 st2).2.trace =
        st2.trace ++ [Call.execAccountCreate (accCreateReqOf failReceiptEnv st2 500), Call.getReceipt 1]) ∧
    ((mintNFTs failAllEnv demoToken (MetaArg.arr demoCids) st2).1 = Except.error errE ∧
      (mintNFTs failAllEnv demoToken (MetaArg.arr demoCids) st2).2.trace =
        st2.trace ++ [Call.execTokenMint (mintReqOf demoToken (MetaArg.arr demoCids) acctA)]) ∧
    ((mintNFTs failReceiptEnv demoToken (MetaArg.arr demoCids) st2).1 = Except.error errE ∧
      (mintNFTs failReceiptEnv demoToken (MetaArg.arr demoCids) st2).2.trace =
        st2.trace ++ [Call.execTokenMint (mintReqOf demoToken (MetaArg.arr demoCids) acctA),
                      Call.getReceipt 3]) ∧
    ((transferNFT failAllEnv (some "0.0.777") 0 1 1 st2).1 = Except.error errE ∧
      (transferNFT failAllEnv (some "0.0.777") 0 1 1 st2).2.trace =
        st2.trace ++ [Call.execTransfer (transferReqOf (some "0.0.777") 1 acctA acctB)]) ∧
    ((transferNFT failReceiptEnv (some "0.0.777") 0 1 1 st2).1 = Except.error errE ∧
      (transferNFT failReceiptEnv (some "0.0.777") 0 1 1 st2).2.trace =
        st2.trace ++ [Call.execTransfer (transferReqOf (some "0.0.777") 1 acctA acctB),
                      Call.getReceipt 5]) ∧
    ((createNFTToken failAllEnv 0 ({} : TokenConfig) st2).1 = Except.error errE ∧
      (createNFTToken failAllEnv 0 ({} : TokenConfig) st2).2.trace =
        st2.trace ++ [Call.execTokenCreate (tokenCreateReqOf ({} : TokenConfig) acctA)]) ∧
    ((associateTokenToAccount failAllEnv 1 (some "0.0.777") st2).1 = Except.error errE ∧
      (associateTokenToAccount failAllEnv 1 (some "0.0.777") st2).2.trace =
        st2.trace ++ [Call.execTokenAssociate (assocReqOf acctB (some "0.0.777"))]) ∧
    ((getAccountBalance failAllEnv (AccountArg.str "0.0.1001") st2).1 = Except.error errE ∧
      (getAccountBalance failAllEnv (AccountArg.str "0.0.1001") st2).2.trace =
        st2.trace ++ [Call.queryBalance (some "0.0.1001")]) ∧
    ((getTokenBasicInfo failAllEnv (some "0.0.777") st2).1 = Except.error errE ∧
      (getTokenBasicInfo failAllEnv (some "0.0.777") st2).2.trace =
        st2.trace ++ [Call.queryTokenInfo (some "0.0.777")]) ∧
    ((transferNFTWithBalanceCheck failAllEnv (some "0.0.777") 0 1 1 st2).1 = Except.error errE ∧
      (transferNFTWithBalanceCheck failAllEnv (some "0.0.777") 0 1 1 st2).2.trace =
        st2.trace ++ [Call.queryBalance acctA.accountId]) ∧
    ((createCompleteNFTCollection failAllEnv ({} : TokenConfig) [] 100 st2).1 = Except.error errE ∧
      (createCompleteNFTCollection failAllEnv ({} : TokenConfig) [] 100 st2).2.trace =
        st2.trace ++ [Call.execAccountCreate (accCreateReqOf failAllEnv st2 100)]) := by
  have hA := C3_rethrow_unchanged failAllEnv st2 errE
  have hR := C3_rethrow_unchanged failReceiptEnv st2 errE
  exact ⟨hA.1 500 rfl,
         hR.2.1 500 1 rfl rfl,
         hA.2.2.1 demoToken (MetaArg.arr demoCids) acctA rfl rfl,
         hR.2.2.2.1 demoToken (MetaArg.arr demoCids) acctA 3 rfl rfl rfl,
         hA.2.2.2.2.1 (some "0.0.777") 0 1 1 acctA acctB rfl rfl rfl,
         hR.2.2.2.2.2.1 (some "0.0.777") 0 1 1 acctA acctB 5 rfl rfl rfl rfl,
         hA.2.2.2.2.2.2.1 0 ({} : TokenConfig) acctA rfl rfl,
         hA.2.2.2.2.2.2.2.1 1 (some "0.0.777") acctB rfl rfl,
         hA.2.2.2.2.2.2.2.2.1 "0.0.1001" rfl,
         hA.2.2.2.2.2.2.2.2.2.1 (some "0.0.777") rfl,
         hA.2.2.2.2.2.2.2.2.2.2.1 (some "0.0.777") 0 1 1 acctA rfl rfl,
         hA.2.2.2.2.2.2.2.2.2.2.2 ({} : TokenConfig) [] 100 rfl⟩

/-- C2: in `transferNFTWithBalanceCheck`, whatever the association error is,
if its message contains the substring `TOKEN_ALREADY_ASSOCIATED` the workflow
continues, still executes the transfer and completes; if its message does not
contain that substring the workflow rethrows it unchanged and the transfer
step is never executed (the trace ends at the association call). -/
theorem C2_already_associated_tolerance (e : Err) :
    (strIncludes e.message "TOKEN_ALREADY_ASSOCIATED" = true →
      ((transferNFTWithBalanceCheck (assocFailEnv e) (some "0.0.777") 0 1 1 st2).1).isOk = true ∧
      (transferNFTWithBalanceCheck (assocFailEnv e) (some "0.0.777") 0 1 1 st2).2.trace.map Call.kind =
        st2.trace.map Call.kind ++
        [CallKind.queryBalance, CallKind.queryBalance, CallKind.execTokenAssociate,
         CallKind.execTransfer, CallKind.getReceipt, CallKind.queryBalance,
         CallKind.queryBalance]) ∧
    (strIncludes e.message "TOKEN_ALREADY_ASSOCIATED" = false →
      (transferNFTWithBalanceCheck (assocFailEnv e) (some "0.0.777") 0 1 1 st2).1 = Except.error e ∧
      (transferNFTWithBalanceCheck (assocFailEnv e) (some "0.0.777") 0 1 1 st2).2.trace.map Call.kind =
        st2.trace.map Call.kind ++
        [CallKind.queryBalance, CallKind.queryBalance, CallKind.execTokenAssociate]) := by
  constructor
  · intro h
    unfold transferNFTWithBalanceCheck getAccountBalance associateTokenToAccount transferNFT
    simp [tryCatch_rethrow, run_tryCatch, run_bind, run_pure, getClient_eq, readAcc,
          doQueryBalance, doExecTokenAssociate, doExecTransfer, doGetReceipt, sdkCall, nowStr,
          M.pure, M.throw, assocFailEnv, okEnv, okSDK, st2, st0, acctA, acctB, Call.kind, h]
    rfl
  · intro h
    unfold transferNFTWithBalanceCheck getAccountBalance associateTokenToAccount
    simp [tryCatch_rethrow, run_tryCatch, run_bind, run_pure, getClient_eq, readAcc,
          doQueryBalance, doExecTokenAssociate, sdkCall, nowStr, M.pure, M.throw,
          assocFailEnv, okEnv, okSDK, st2, st0, acctA, acctB, Call.kind, h]

/-- Witness for C2: a matching `TOKEN_ALREADY_ASSOCIATED` error is tolerated
and the transfer still happens; a non-matching `INVALID_SIGNATURE` error is
rethrown and no transfer call is made. -/
theorem C2_already_associated_tolerance_witness :
    (((transferNFTWithBalanceCheck (assocFailEnv eAssoc) (some "0.0.777") 0 1 1 st2).1).isOk = true ∧
      (transferNFTWithBalanceCheck (assocFailEnv eAssoc) (some "0.0.777") 0 1 1 st2).2.trace.map Call.kind =
        st2.trace.map Call.kind ++
        [CallKind.queryBalance, CallKind.queryBalance, CallKind.execTokenAssociate,
         CallKind.execTransfer, CallKind.getReceipt, CallKind.queryBalance,
         CallKind.queryBalance]) ∧
    ((transferNFTWithBalanceCheck (assocFailEnv eOther) (some "0.0.777") 0 1 1 st2).1 = Except.error eOther ∧
      (transferNFTWithBalanceCheck (assocFailEnv eOther) (some "0.0.777") 0 1 1 st2).2.trace.map Call.kind =
        st2.trace.map Call.kind ++
        [CallKind.queryBalance, CallKind.queryBalance, CallKind.execTokenAssociate]) :=
  ⟨(C2_already_associated_tolerance eAssoc).1 (by decide),
   (C2_already_associated_tolerance eOther).2 (by decide)⟩

/-- C7: `createNFTToken` performs exactly one token-creation transaction
(execute plus its receipt) followed by exactly one token-info query, and the
returned record carries the receipt's tokenId and status, the name, symbol,
type, supply and treasury fields of the info query response (not the
caller-supplied configuration), and the original treasury account
reference. -/
theorem C7_createNFTToken_shape (E : Env) (s : St) (ref : AccRef) (cfg : TokenConfig)
    (ta : Account) (tx : TxRef) (rec : Receipt) (ti : TokenInfo)
    (hh : s.heap[ref]? = some ta)
    (h1 : E.sdk.execTokenCreate (tokenCreateReqOf cfg ta) = Except.ok tx)
    (h2 : E.sdk.getReceipt tx = Except.ok rec)
    (h3 : E.sdk.queryTokenInfo rec.tokenId = Except.ok ti) :
    (createNFTToken E ref cfg s).1 =
      Except.ok { tokenId := rec.tokenId, status := rec.status, name := ti.name,
                  symbol := ti.symbol, tokenType := ti.tokenType, decimals := ti.decimals,
                  totalSupply := ti.totalSupply, maxSupply := ti.maxSupply,
                  supplyType := ti.supplyType, treasuryAccountId := ti.treasuryAccountId,
                  supplyKey := ti.supplyKey, creationTime := ti.creationTime,
                  treasuryAccount := ref } ∧
    (createNFTToken E ref cfg s).2.trace =
      s.trace ++ [Call.execTokenCreate (tokenCreateReqOf cfg ta), Call.getReceipt tx,
                  Call.queryTokenInfo rec.tokenId] := by
  unfold tokenCreateReqOf at h1 ⊢
  unfold createNFTToken
  rw [tryCatch_rethrow]
  simp [run_bind, run_pure, getClient_eq, readAcc, doExecTokenCreate, doGetReceipt,
        doQueryTokenInfo, sdkCall, hh, h1, h2, h3]

/-- Witness for C7: a caller configuration naming the token `CallerName` has
no effect on the returned name — the record carries the info query's
`Degree`. -/
theorem C7_createNFTToken_shape_witness :
    (createNFTToken okEnv 0 { name := some "CallerName", symbol := some "CN", maxSupply := some 9 } st2).1 =
      Except.ok { tokenId := some "0.0.777", status := "SUCCESS", name := "Degree",
                  symbol := "DEG", tokenType := "NON_FUNGIBLE_UNIQUE", decimals := 0,
                  totalSupply := 5, maxSupply := 5, supplyType := "FINITE",
                  treasuryAccountId := some "0.0.1001", supplyKey := some 11,
                  creationTime := "t0", treasuryAccount := 0 } ∧
    (createNFTToken okEnv 0 { name := some "CallerName", symbol := some "CN", maxSupply := some 9 } st2).2.trace =
      st2.trace ++
        [Call.execTokenCreate
          (tokenCreateReqOf { name := some "CallerName", symbol := some "CN", maxSupply := some 9 } acctA),
         Call.getReceipt 2, Call.queryTokenInfo (some "0.0.777")] ∧
    ("CallerName" : String) ≠ "Degree" :=
  ⟨(C7_createNFTToken_shape okEnv st2 0
      { name := some "CallerName", symbol := some "CN", maxSupply := some 9 } acctA 2
      { status := "SUCCESS", accountId := some "0.0.1002", tokenId := some "0.0.777",
        serials := some [1, 2, 3, 4, 5] }
      { tokenId := some "0.0.777", name := "Degree", symbol := "DEG",
        tokenType := "NON_FUNGIBLE_UNIQUE", decimals := 0, totalSupply := 5,
        maxSupply := 5, supplyType := "FINITE", treasuryAccountId := some "0.0.1001",
        supplyKey := some 11, creationTime := "t0" }
      rfl rfl rfl rfl).1,
   (C7_createNFTToken_shape okEnv st2 0
      { name := some "CallerName", symbol := some "CN", maxSupply := some 9 } acctA 2
      { status := "SUCCESS", accountId := some "0.0.1002", tokenId := some "0.0.777",
        serials := some [1, 2, 3, 4, 5] }
      { tokenId := some "0.0.777", name := "Degree", symbol := "DEG",
        tokenType := "NON_FUNGIBLE_UNIQUE", decimals := 0, totalSupply := 5,
        maxSupply := 5, supplyType := "FINITE", treasuryAccountId := some "0.0.1001",
        supplyKey := some 11, creationTime := "t0" }
      rfl rfl rfl rfl).2,
   by decide⟩

/-- C10: `mintNFTs` wraps a non-array metadata argument into a one-element
list, keeps string elements as-is and JSON-stringifies non-string elements
for the buffers, submits exactly one mint transaction carrying one buffer per
element, and returns `count` equal to the length of the receipt's serial list
(0 when that list is absent), the serial list itself, the receipt status, the
token id passed in and the local mint timestamp. -/
theorem C10_mintNFTs_shape (E : Env) (s : St) (td : TokenRec) (arg : MetaArg)
    (ta : Account) (tx : TxRef) (rec : Receipt)
    (hh : s.heap[td.treasuryAccount]? = some ta)
    (h1 : E.sdk.execTokenMint (mintReqOf td arg ta) = Except.ok tx)
    (h2 : E.sdk.getReceipt tx = Except.ok rec) :
    (mintNFTs E td arg s).1 =
      Except.ok { serials := rec.serials, status := rec.status, tokenId := td.tokenId,
                  count := jsCount rec.serials, mintedAt := E.time s.tick } ∧
    (mintNFTs E td arg s).2.trace =
      s.trace ++ [Call.execTokenMint (mintReqOf td arg ta), Call.getReceipt tx] ∧
    (mintReqOf td arg ta).metadata = (normalizeMetaArg arg).map metaBuffer ∧
    (mintReqOf td arg ta).metadata.length = (normalizeMetaArg arg).length ∧
    (∀ l, normalizeMetaArg (MetaArg.arr l) = l) ∧
    (∀ v, normalizeMetaArg (MetaArg.single v) = [v]) ∧
    (∀ str, metaBuffer (JsVal.vstr str) = str) ∧
    (∀ v, (∀ str, v ≠ JsVal.vstr str) → metaBuffer v = jsonStringify v) ∧
    jsCount none = 0 ∧ (∀ l, jsCount (some l) = l.length) := by
  refine ⟨?_, ?_, ?_, ?_, ?_, ?_, ?_, ?_, ?_, ?_⟩
  · unfold mintReqOf at h1
    unfold mintNFTs
    rw [tryCatch_rethrow]
    simp [run_bind, run_pure, getClient_eq, readAcc, doExecTokenMint, doGetReceipt,
          sdkCall, nowStr, hh, h1, h2]
  · unfold mintReqOf at h1 ⊢
    unfold mintNFTs
    rw [tryCatch_rethrow]
    simp [run_bind, run_pure, getClient_eq, readAcc, doExecTokenMint, doGetReceipt,
          sdkCall, nowStr, hh, h1, h2]
  · rfl
  · simp [mintReqOf]
  · intro l
    rfl
  · intro v
    rfl
  · intro str
    rfl
  · intro v hv
    cases v with
    | vstr str => exact absurd rfl (hv str)
    | vnum n => rfl
    | vobj fields => rfl
  · rfl
  · intro l
    rfl

/-- Witness for C10: minting a single non-array numeric metadata value sends
one mint transaction with the single buffer `42` and returns count 5 for the
five receipt serials. -/
theorem C10_mintNFTs_shape_witness :
    (mintNFTs okEnv demoToken (MetaArg.single (JsVal.vnum 42)) st2).1 =
      Except.ok { serials := some [1, 2, 3, 4, 5], status := "SUCCESS",
                  tokenId := some "0.0.777", count := 5, mintedAt := "2024-01-01T00:00:00" } ∧
    (mintNFTs okEnv demoToken (MetaArg.single (JsVal.vnum 42)) st2).2.trace =
      [Call.execTokenMint { tokenId := some "0.0.777", metadata := ["42"], signedBy := [11] },
       Call.getReceipt 3] ∧
    metaBuffer (JsVal.vnum 42) = jsonStringify (JsVal.vnum 42) := by
  have h := C10_mintNFTs_shape okEnv st2 demoToken (MetaArg.single (JsVal.vnum 42)) acctA 3
    { status := "SUCCESS", accountId := some "0.0.1003", tokenId := some "0.0.777",
      serials := some [1, 2, 3, 4, 5] }
    rfl rfl rfl
  exact ⟨h.1, h.2.1, h.2.2.2.2.2.2.2.1 (JsVal.vnum 42) (fun str hcon => JsVal.noConfusion hcon)⟩

/-- C4 fails as stated: `createCompleteNFTCollection` does branch on the
value of its input — with an empty metadata list it skips the mint step (five
SDK calls, `mintResult` null), with a one-element list it mints (seven SDK
calls, `mintResult` present), so neither the call sequence nor the result
shape is the same for every input. -/
theorem C4_counterexample :
    (createCompleteNFTCollection okEnv ({} : TokenConfig) [] 100 st0).2.trace.map Call.kind =
      [CallKind.execAccountCreate, CallKind.getReceipt, CallKind.execTokenCreate,
       CallKind.getReceipt, CallKind.queryTokenInfo] ∧
    (createCompleteNFTCollection okEnv ({} : TokenConfig) [JsVal.vstr "cid"] 100 st0).2.trace.map Call.kind =
      [CallKind.execAccountCreate, CallKind.getReceipt, CallKind.execTokenCreate,
       CallKind.getReceipt, CallKind.queryTokenInfo, CallKind.execTokenMint,
       CallKind.getReceipt] ∧
    (createCompleteNFTCollection okEnv ({} : TokenConfig) [] 100 st0).1.toOption.map
      (fun r => r.mintResult.isSome) = some false ∧
    (createCompleteNFTCollection okEnv ({} : TokenConfig) [JsVal.vstr "cid"] 100 st0).1.toOption.map
      (fun r => r.mintResult.isSome) = some true :=
  ⟨rfl, rfl, rfl, rfl⟩

/-- C4 amended: apart from the already-associated special case, the only
input-dependent branching that changes the SDK call sequence or the result
shape is `createCompleteNFTCollection` skipping the mint step (leaving a null
mint result) exactly when the metadata list is empty; `mintNFTs` and
`getAccountBalance` normalize their input's shape without changing the call
sequence — on a fixed oracle each performs the same kinds of SDK calls for
every input. -/
theorem C4_call_sequences_amended :
    (∀ td arg s ta, s.heap[td.treasuryAccount]? = some ta →
      (mintNFTs okEnv td arg s).2.trace.map Call.kind =
        s.trace.map Call.kind ++ [CallKind.execTokenMint, CallKind.getReceipt] ∧
      ((mintNFTs okEnv td arg s).1).isOk = true) ∧
    (∀ a s, (∀ r, a = AccountArg.ref r → r < s.heap.length) →
      (getAccountBalance okEnv a s).2.trace.map Call.kind =
        s.trace.map Call.kind ++ [CallKind.queryBalance] ∧
      ((getAccountBalance okEnv a s).1).isOk = true) ∧
    (∀ cfg meta bal,
      (createCompleteNFTCollection okEnv cfg meta bal st0).2.trace.map Call.kind =
        (if meta.length > 0 then
          [CallKind.execAccountCreate, CallKind.getReceipt, CallKind.execTokenCreate,
           CallKind.getReceipt, CallKind.queryTokenInfo, CallKind.execTokenMint,
           CallKind.getReceipt]
         else
          [CallKind.execAccountCreate, CallKind.getReceipt, CallKind.execTokenCreate,
           CallKind.getReceipt, CallKind.queryTokenInfo]) ∧
      (createCompleteNFTCollection okEnv cfg meta bal st0).1.toOption.map
        (fun r => r.mintResult.isSome) = some (decide (meta.length > 0))) := by
  refine ⟨?_, ?_, ?_⟩
  · intro td arg s ta hh
    constructor
    · unfold mintNFTs
      rw [tryCatch_rethrow]
      simp [run_bind, run_pure, getClient_eq, readAcc, doExecTokenMint, doGetReceipt,
            sdkCall, nowStr, okEnv, okSDK, hh, Call.kind]
    · unfold mintNFTs
      rw [tryCatch_rethrow]
      simp [run_bind, run_pure, getClient_eq, readAcc, doExecTokenMint, doGetReceipt,
            sdkCall, nowStr, okEnv, okSDK, hh]
      rfl
  · intro a s hv
    cases a with
    | str aid =>
        constructor
        · unfold getAccountBalance
          rw [tryCatch_rethrow]
          simp [run_bind, run_pure, getClient_eq, doQueryBalance, sdkCall, okEnv, okSDK,
                Call.kind]
        · unfold getAccountBalance
          rw [tryCatch_rethrow]
          simp [run_bind, run_pure, getClient_eq, doQueryBalance, sdkCall, okEnv, okSDK]
          rfl
    | ref r =>
        have hr : r < s.heap.length := hv r rfl
        have hh : s.heap[r]? = some s.heap[r] := List.getElem?_eq_getElem hr
        constructor
        · unfold getAccountBalance
          rw [tryCatch_rethrow]
          simp [run_bind, run_pure, getClient_eq, readAcc, doQueryBalance, sdkCall, okEnv,
                okSDK, hh, Call.kind]
        · unfold getAccountBalance
          rw [tryCatch_rethrow]
          simp [run_bind, run_pure, getClient_eq, readAcc, doQueryBalance, sdkCall, okEnv,
                okSDK, hh]
          rfl
  · intro cfg meta bal
    cases meta with
    | nil =>
        constructor
        · unfold createCompleteNFTCollection createAccount createNFTToken
          simp [tryCatch_rethrow, run_bind, run_pure, getClient_eq, readAcc, freshKey,
                allocAcc, doExecAccountCreate, doExecTokenCreate, doGetReceipt,
                doQueryTokenInfo, sdkCall, okEnv, okSDK, st0, Call.kind]
        · unfold createCompleteNFTCollection createAccount createNFTToken
          simp [tryCatch_rethrow, run_bind, run_pure, getClient_eq, readAcc, freshKey,
                allocAcc, doExecAccountCreate, doExecTokenCreate, doGetReceipt,
                doQueryTokenInfo, sdkCall, okEnv, okSDK, st0, Except.toOption]
    | cons v rest =>
        constructor
        · unfold createCompleteNFTCollection createAccount createNFTToken mintNFTs
          simp [tryCatch_rethrow, run_bind, run_pure, getClient_eq, readAcc, freshKey,
                allocAcc, doExecAccountCreate, doExecTokenCreate, doExecTokenMint,
                doGetReceipt, doQueryTokenInfo, sdkCall, nowStr, okEnv, okSDK, st0,
                Call.kind]
        · unfold createCompleteNFTCollection createAccount createNFTToken mintNFTs
          simp [tryCatch_rethrow, run_bind, run_pure, getClient_eq, readAcc, freshKey,
                allocAcc, doExecAccountCreate, doExecTokenCreate, doExecTokenMint,
                doGetReceipt, doQueryTokenInfo, sdkCall, nowStr, okEnv, okSDK, st0,
                Except.toOption]

/-- Witness for the amended C4: both a wrapped single metadata value and an
array argument give `mintNFTs` the same two-call sequence; a string account
argument and an object argument give `getAccountBalance` the same single-call
sequence; the complete workflow makes five calls on an empty list and seven
on a two-element list. -/
theorem C4_call_sequences_amended_witness :
    ((mintNFTs okEnv demoToken (MetaArg.single (JsVal.vnum 1)) st2).2.trace.map Call.kind =
      st2.trace.map Call.kind ++ [CallKind.execTokenMint, CallKind.getReceipt]) ∧
    ((mintNFTs okEnv demoToken (MetaArg.arr demoCids) st2).2.trace.map Call.kind =
      st2.trace.map Call.kind ++ [CallKind.execTokenMint, CallKind.getReceipt]) ∧
    ((getAccountBalance okEnv (AccountArg.str "0.0.5") st2).2.trace.map Call.kind =
      st2.trace.map Call.kind ++ [CallKind.queryBalance]) ∧
    ((getAccountBalance okEnv (AccountArg.ref 1) st2).2.trace.map Call.kind =
      st2.trace.map Call.kind ++ [CallKind.queryBalance]) ∧
    ((createCompleteNFTCollection okEnv ({} : TokenConfig) [] 100 st0).2.trace.map Call.kind =
      [CallKind.execAccountCreate, CallKind.getReceipt, CallKind.execTokenCreate,
       CallKind.getReceipt, CallKind.queryTokenInfo]) ∧
    ((createCompleteNFTCollection okEnv ({} : TokenConfig) demoCids 100 st0).2.trace.map Call.kind =
      [CallKind.execAccountCreate, CallKind.getReceipt, CallKind.execTokenCreate,
       CallKind.getReceipt, CallKind.queryTokenInfo, CallKind.execTokenMint,
       CallKind.getReceipt]) := by
  have hm := C4_call_sequences_amended.1
  have hb := C4_call_sequences_amended.2.1
  have hc := C4_call_sequences_amended.2.2
  exact ⟨(hm demoToken (MetaArg.single (JsVal.vnum 1)) st2 acctA rfl).1,
         (hm demoToken (MetaArg.arr demoCids) st2 acctA rfl).1,
         (hb (AccountArg.str "0.0.5") st2 (fun r hcon => AccountArg.noConfusion hcon)).1,
         (hb (AccountArg.ref 1) st2 (fun r hcon => by cases hcon; decide)).1,
         (hc ({} : TokenConfig) [] 100).1,
         (hc ({} : TokenConfig) demoCids 100).1⟩

/-- C5 fails as stated: not every returned field is a value already computed
by the SDK.  Two runs of `mintNFTs` under environments whose SDK oracle and
key stream are the very same, differing only in the local clock, return
different `mintedAt` fields — that field is `new Date().toISOString()`,
computed locally by the service. -/
theorem C5_counterexample :
    ((mintNFTs envTimeA demoToken (MetaArg.arr [JsVal.vstr "cid"]) st2).1.toOption.map
      MintResult.mintedAt = some "TA") ∧
    ((mintNFTs envTimeB demoToken (MetaArg.arr [JsVal.vstr "cid"]) st2).1.toOption.map
      MintResult.mintedAt = some "TB") ∧
    envTimeA.sdk = envTimeB.sdk ∧ envTimeA.keys = envTimeB.keys :=
  ⟨rfl, rfl, rfl, rfl⟩

/-- C5 amended: every field of every record returned by a service method is
an SDK receipt or query value (possibly stringified), a caller-supplied input
or locally generated key pair echoed back, or one of the locally computed
fields: the timestamp fields (`mintedAt` and its analogues, read from the
local clock), `count` (the length of the receipt's serial list, 0 when
absent), and the summary `success` flag (whether the receipt status string
equals `SUCCESS`).  Shown by exact provenance for the records of
`createAccount`, `mintNFTs` and the `transferNFTWithBalanceCheck` summary. -/
theorem C5_field_provenance_amended :
    (∀ (E : Env) (s : St) (bal : Int) (tx : TxRef) (rec : Receipt),
      E.sdk.execAccountCreate (accCreateReqOf E s bal) = Except.ok tx →
      E.sdk.getReceipt tx = Except.ok rec →
      (createAccount E bal s).1 = Except.ok s.heap.length ∧
      (createAccount E bal s).2.heap =
        s.heap ++ [{ accountId := rec.accountId, privateKey := E.keys s.keyCtr,
                     publicKey := pubOf (E.keys s.keyCtr), status := rec.status,
                     balance := bal }]) ∧
    (∀ (E : Env) (s : St) (td : TokenRec) (arg : MetaArg) (ta : Account) (tx : TxRef)
      (rec : Receipt),
      s.heap[td.treasuryAccount]? = some ta →
      E.sdk.execTokenMint (mintReqOf td arg ta) = Except.ok tx →
      E.sdk.getReceipt tx = Except.ok rec →
      (mintNFTs E td arg s).1 =
        Except.ok { serials := rec.serials, status := rec.status, tokenId := td.tokenId,
                    count := jsCount rec.serials, mintedAt := E.time s.tick }) ∧
    (∀ stx : Status,
      (transferNFTWithBalanceCheck (statusEnv stx) (some "0.0.777") 0 1 1 st2).1.toOption.map
        TransferWfResult.summary =
        some { tokenId := some "0.0.777", serialNumber := 1, fromAcc := some "0.0.1001",
               toAcc := some "0.0.1002", success := decide (stx = "SUCCESS") }) := by
  refine ⟨?_, ?_, ?_⟩
  · intro E s bal tx rec h1 h2
    unfold accCreateReqOf at h1
    unfold createAccount
    rw [tryCatch_rethrow]
    simp [run_bind, run_pure, getClient_eq, freshKey, doExecAccountCreate, doGetReceipt,
          sdkCall, allocAcc, h1, h2]
  · intro E s td arg ta tx rec hh h1 h2
    unfold mintReqOf at h1
    unfold mintNFTs
    rw [tryCatch_rethrow]
    simp [run_bind, run_pure, getClient_eq, readAcc, doExecTokenMint, doGetReceipt,
          sdkCall, nowStr, hh, h1, h2]
  · intro stx
    unfold transferNFTWithBalanceCheck getAccountBalance associateTokenToAccount transferNFT
    simp [tryCatch_rethrow, run_tryCatch, run_bind, run_pure, getClient_eq, readAcc,
          doQueryBalance, doExecTokenAssociate, doExecTransfer, doGetReceipt, sdkCall,
          nowStr, M.pure, M.throw, statusEnv, statusReceipt, okEnv, okSDK, st2, st0,
          acctA, acctB, Except.toOption]
    exact ⟨rfl, rfl, rfl⟩

/-- Witness for the amended C5: the three provenance statements at concrete
inputs; with receipts whose status is `PENDING`, the summary success flag is
false. -/
theorem C5_field_provenance_amended_witness :
    ((createAccount okEnv 500 st2).1 = Except.ok 2 ∧
      (createAccount okEnv 500 st2).2.heap =
        st2.heap ++ [{ accountId := some "0.0.1001", privateKey := 13, publicKey := 13,
                       status := "SUCCESS", balance := 500 }]) ∧
    ((mintNFTs okEnv demoToken (MetaArg.arr demoCids) st2).1 =
      Except.ok { serials := some [1, 2, 3, 4, 5], status := "SUCCESS",
                  tokenId := some "0.0.777", count := 5,
                  mintedAt := "2024-01-01T00:00:00" }) ∧
    ((transferNFTWithBalanceCheck (statusEnv "PENDING") (some "0.0.777") 0 1 1 st2).1.toOption.map
        TransferWfResult.summary =
      some { tokenId := some "0.0.777", serialNumber := 1, fromAcc := some "0.0.1001",
             toAcc := some "0.0.1002", success := false }) := by
  have h := C5_field_provenance_amended
  exact ⟨h.1 okEnv st2 500 1
           { status := "SUCCESS", accountId := some "0.0.1001", tokenId := some "0.0.777",
             serials := some [1, 2, 3, 4, 5] } rfl rfl,
         h.2.1 okEnv st2 demoToken (MetaArg.arr demoCids) acctA 3
           { status := "SUCCESS", accountId := some "0.0.1003", tokenId := some "0.0.777",
             serials := some [1, 2, 3, 4, 5] } rfl rfl rfl,
         h.2.2 "PENDING"⟩

end HederaNft
